import Mathlib

/-!
Verification of the graphiti-stack API layer (`src/graphiti-api/app/main.py`).

The file is a shallow embedding of the FastAPI wrapper: each request handler
becomes a pure Lean function from an explicit context (the configured tenant
key string, the optional global client handle, the current wall-clock time,
and a model of the ISO-datetime parser) and the parsed request to a pair of
the HTTP outcome and the trace of calls issued to the external Graphiti
client.  The external client itself (graphiti_core) is opaque to this layer
and is modelled as a record of fallible operations (`Except String` results,
the `String` being the Python exception message that `str(e)` would render).
-/

/-- A datetime value, modelled by the ISO rendering it would print.
Only identity and `isoformat` matter to this layer. -/
structure DateTime where
  iso : String
deriving DecidableEq, Repr

/-- `datetime.isoformat()`. -/
def DateTime.isoformat (d : DateTime) : String := d.iso

/-- Python `str.lower()` restricted to what this layer needs:
character-wise lowercasing. -/
def strLower (s : String) : String := String.mk (s.data.map Char.toLower)

/-- `graphiti_core.nodes.EpisodeType` members used by the wrapper. -/
inductive EpisodeType
  | message
  | text
  | json
deriving DecidableEq, Repr

/-- Python `EpisodeType[name]`: enum lookup by member name
(raises `KeyError`, i.e. `none`, for any other string). -/
def episodeTypeLookup : String → Option EpisodeType
  | "message" => some EpisodeType.message
  | "text" => some EpisodeType.text
  | "json" => some EpisodeType.json
  | _ => none

/-- Python `a or b` on an optional string: `None` and `""` are falsy. -/
def pyOr (o : Option String) (d : String) : String :=
  match o with
  | none => d
  | some s => if s = "" then d else s

/-- `EpisodeRequest` pydantic model (`main.py` lines 79-86).  The free-form
`metadata` mapping is omitted: the handler never reads it. -/
structure EpisodeRequest where
  tenant_id : String
  content : String
  source : String := "message"
  source_description : Option String := none
  reference_time : Option String := none
deriving DecidableEq, Repr

/-- `SearchRequest` pydantic model (`main.py` lines 89-94). -/
structure SearchRequest where
  tenant_id : String
  query : String
  limit : Int := 10
  include_edges : Bool := true
deriving DecidableEq, Repr

/-- Relevance score attached to a search hit; passed through opaquely,
its numeric type never inspected by this layer. -/
abbrev Score := Int

/-- The arguments of a `graphiti_client.add_episode(...)` call
(`main.py` lines 138-145). -/
structure AddEpisodeCall where
  name : String
  episode_body : String
  source : EpisodeType
  source_description : String
  reference_time : DateTime
  group_id : String
deriving DecidableEq, Repr

/-- The arguments of a `graphiti_client.search(...)` call.  The wrapper
uses two distinct keyword shapes (`limit=` in the search handler,
`num_results=` in the entities/stats handlers); both are recorded. -/
structure SearchCall where
  query : String
  group_ids : List String
  limit : Option Int := none
  num_results : Option Int := none
deriving DecidableEq, Repr

/-- The arguments of a `graphiti_client.retrieve_episodes(...)` call
(`main.py` lines 266-270). -/
structure RetrieveEpisodesCall where
  reference_time : DateTime
  last_n : Int
  group_ids : List String
deriving DecidableEq, Repr

/-- The duck-typed `fact` attribute of a search result: each of its
attributes may be present or absent (`hasattr` checks). -/
structure FactObj where
  name : Option String
  uuid : Option String
  summary : Option String
deriving DecidableEq, Repr

/-- A search result returned by the external client.  `score`,
`created_at` and `fact` are duck-typed optional attributes. -/
structure SearchHit where
  uuid : String
  content : String
  score : Option Score
  created_at : Option DateTime
  fact : Option FactObj
deriving DecidableEq, Repr

/-- The `episode` object inside the external add-episode result;
`created_at` is checked with `hasattr` before use. -/
structure EpisodeObj where
  uuid : String
  name : String
  created_at : Option DateTime
deriving DecidableEq, Repr

/-- The external `add_episode` result: the episode plus the lists of
newly created graph nodes and edges (only their lengths are read). -/
structure AddEpisodeResults where
  episode : EpisodeObj
  nodes : List Unit
  edges : List Unit
deriving DecidableEq, Repr

/-- The external Graphiti client, as seen by this layer: four fallible
operations.  `Except.error msg` models a raised exception whose
`str(e)` is `msg`. -/
structure GraphitiClient where
  add_episode : AddEpisodeCall → Except String AddEpisodeResults
  search : SearchCall → Except String (List SearchHit)
  retrieve_episodes : RetrieveEpisodesCall → Except String (List Unit)
  clear_data : String → Except String Unit

/-- One recorded invocation of the external client. -/
inductive ClientCall
  | addEpisode (c : AddEpisodeCall)
  | search (c : SearchCall)
  | retrieveEpisodes (c : RetrieveEpisodesCall)
  | clearData (group_id : String)
deriving DecidableEq, Repr

/-- The outcome of a handler: a JSON payload, or a raised
`HTTPException(status_code, detail)`. -/
inductive HandlerResult (α : Type)
  | ok (payload : α)
  | httpError (status : Nat) (detail : String)
deriving DecidableEq, Repr

/-- Tenant-scoping: `group_id = f"{TENANT_PREFIX}{tenant_id}"`
(`main.py` line 126 and its copies in every handler). -/
def scope (pfx tenant_id : String) : String := pfx ++ tenant_id

/-- `verify_api_key` (`main.py` lines 32-36): the header value is compared
to `TURKWISE_API_KEY` (an environment variable that may be unset, hence
`Option String`); mismatch raises 401. -/
def verify_api_key (configuredKey : Option String) (api_key : String) :
    HandlerResult String :=
  if some api_key ≠ configuredKey then
    HandlerResult.httpError 401 "Invalid API key"
  else
    HandlerResult.ok api_key

/-- The full access guard: `APIKeyHeader(name="X-API-KEY", auto_error=True)`
rejects an absent header with 403 before `verify_api_key` runs; a present
header is passed to `verify_api_key`. -/
def api_key_guard (configuredKey : Option String) (header : Option String) :
    HandlerResult String :=
  match header with
  | none => HandlerResult.httpError 403 "Not authenticated"
  | some k => verify_api_key configuredKey k

/-- `GET /health` (`main.py` lines 105-112); the route has no auth
dependency and reads only the global handle and the configured endpoint. -/
structure HealthResponse where
  status : String
  graphiti : String
  falkordb : String
deriving DecidableEq, Repr

/-- The health handler body. -/
def health_check (client : Option GraphitiClient) (host : String) (port : Int) :
    HealthResponse :=
  { status := "healthy"
    graphiti := if client.isSome then "connected" else "disconnected"
    falkordb := host ++ ":" ++ toString port }

/-- Resolution of the optional reference time (`main.py` line 130):
`datetime.fromisoformat(x) if x else datetime.now()` — note that both
`None` and the empty string are falsy in Python, and a parse failure is a
raised `ValueError` (the `Except.error`). -/
def refResolve (parseIso : String → Except String DateTime) (now : DateTime) :
    Option String → Except String DateTime
  | none => Except.ok now
  | some s => if s = "" then Except.ok now else parseIso s

/-- The `add_episode` client call built by the handler
(`main.py` lines 138-145). -/
def addEpisodeCallOf (group_id : String) (ref_time : DateTime)
    (source_enum : EpisodeType) (req : EpisodeRequest) : AddEpisodeCall :=
  { name := pyOr req.source_description "Customer Conversation"
    episode_body := req.content
    source := source_enum
    source_description := pyOr req.source_description ""
    reference_time := ref_time
    group_id := group_id }

/-- The `episode` part of a successful add-episode response. -/
structure EpisodeInfo where
  uuid : String
  name : String
  created_at : Option String
deriving DecidableEq, Repr

/-- Successful `POST /episodes` payload (`main.py` lines 149-159). -/
structure AddEpisodeResponse where
  success : Bool
  group_id : String
  episode : EpisodeInfo
  nodes_created : Nat
  edges_created : Nat
deriving DecidableEq, Repr

/-- `POST /episodes` handler (`main.py` lines 115-165).  Returns the HTTP
outcome together with the trace of external-client calls issued.  The
broad `except Exception` turns the `ValueError` of a failed timestamp
parse, and any client exception, into a 500; the inner `except KeyError`
around the enum lookup raises 400, re-raised unchanged by
`except HTTPException: raise`. -/
def add_episode (pfx : String) (client : Option GraphitiClient)
    (parseIso : String → Except String DateTime) (now : DateTime)
    (req : EpisodeRequest) :
    HandlerResult AddEpisodeResponse × List ClientCall :=
  match client with
  | none => (HandlerResult.httpError 503 "Graphiti not initialized", [])
  | some c =>
    let group_id := scope pfx req.tenant_id
    match refResolve parseIso now req.reference_time with
    | Except.error msg => (HandlerResult.httpError 500 msg, [])
    | Except.ok ref_time =>
      match episodeTypeLookup (strLower req.source) with
      | none =>
        (HandlerResult.httpError 400
          ("Invalid source type: " ++ req.source ++
            ". Valid values: message, text, json"), [])
      | some source_enum =>
        let call := addEpisodeCallOf group_id ref_time source_enum req
        match c.add_episode call with
        | Except.error msg =>
          (HandlerResult.httpError 500 msg, [ClientCall.addEpisode call])
        | Except.ok episodes =>
          (HandlerResult.ok
            { success := true
              group_id := group_id
              episode :=
                { uuid := episodes.episode.uuid
                  name := episodes.episode.name
                  created_at := episodes.episode.created_at.map DateTime.isoformat }
              nodes_created := episodes.nodes.length
              edges_created := episodes.edges.length },
           [ClientCall.addEpisode call])

/-- One mapped search hit in the response (`main.py` lines 195-200). -/
structure SearchResultItem where
  uuid : String
  content : String
  score : Option Score
  created_at : Option String
deriving DecidableEq, Repr

/-- Successful `POST /search` payload (`main.py` lines 189-203). -/
structure SearchResponse where
  success : Bool
  query : String
  group_id : String
  results_count : Nat
  results : List SearchResultItem
deriving DecidableEq, Repr

/-- The `search` client call built by the search handler
(`main.py` lines 181-185). -/
def searchMemoryCallOf (group_id : String) (req : SearchRequest) : SearchCall :=
  { query := req.query
    group_ids := [group_id]
    limit := some req.limit
    num_results := none }

/-- Per-hit mapping of the search handler (`main.py` lines 195-200):
absent duck-typed attributes become `null`, never an error. -/
def mapHit (r : SearchHit) : SearchResultItem :=
  { uuid := r.uuid
    content := r.content
    score := r.score
    created_at := r.created_at.map DateTime.isoformat }

/-- `POST /search` handler (`main.py` lines 168-207). -/
def search_memory (pfx : String) (client : Option GraphitiClient)
    (req : SearchRequest) :
    HandlerResult SearchResponse × List ClientCall :=
  match client with
  | none => (HandlerResult.httpError 503 "Graphiti not initialized", [])
  | some c =>
    let group_id := scope pfx req.tenant_id
    let call := searchMemoryCallOf group_id req
    match c.search call with
    | Except.error msg =>
      (HandlerResult.httpError 500 msg, [ClientCall.search call])
    | Except.ok results =>
      (HandlerResult.ok
        { success := true
          query := req.query
          group_id := group_id
          results_count := results.length
          results := results.map mapHit },
       [ClientCall.search call])

/-- One entity in the entities response (`main.py` lines 234-238). -/
structure EntityInfo where
  name : String
  uuid : String
  summary : Option String
deriving DecidableEq, Repr

/-- Successful `GET /entities/{tenant_id}` payload
(`main.py` lines 240-245). -/
structure EntitiesResponse where
  success : Bool
  group_id : String
  entities_count : Nat
  entities : List EntityInfo
deriving DecidableEq, Repr

/-- The `search` client call built by the entities handler
(`main.py` lines 224-228). -/
def entitiesSearchCall (group_id : String) : SearchCall :=
  { query := ""
    group_ids := [group_id]
    limit := none
    num_results := some 1000 }

/-- Python-dict insertion into an insertion-ordered association list:
an existing key keeps its position and gets the new value, a new key is
appended. -/
def dictInsert (k : String) (v : EntityInfo) :
    List (String × EntityInfo) → List (String × EntityInfo)
  | [] => [(k, v)]
  | (k₂, v₂) :: rest =>
    if k₂ = k then (k, v) :: rest else (k₂, v₂) :: dictInsert k v rest

/-- The entities accumulation loop (`main.py` lines 231-238): a result
contributes only when it has a `fact` with a `name`; the unguarded
`result.fact.uuid` access raises `AttributeError` when `uuid` is absent. -/
def entitiesFold : List SearchHit → List (String × EntityInfo) →
    Except String (List (String × EntityInfo))
  | [], acc => Except.ok acc
  | r :: rest, acc =>
    match r.fact with
    | none => entitiesFold rest acc
    | some f =>
      match f.name with
      | none => entitiesFold rest acc
      | some nm =>
        match f.uuid with
        | none => Except.error "AttributeError: uuid"
        | some u =>
          entitiesFold rest
            (dictInsert nm { name := nm, uuid := u, summary := f.summary } acc)

/-- `GET /entities/{tenant_id}` handler (`main.py` lines 210-249). -/
def get_entities (pfx : String) (client : Option GraphitiClient)
    (tenant_id : String) :
    HandlerResult EntitiesResponse × List ClientCall :=
  match client with
  | none => (HandlerResult.httpError 503 "Graphiti not initialized", [])
  | some c =>
    let group_id := scope pfx tenant_id
    let call := entitiesSearchCall group_id
    match c.search call with
    | Except.error msg =>
      (HandlerResult.httpError 500 msg, [ClientCall.search call])
    | Except.ok results =>
      match entitiesFold results [] with
      | Except.error msg =>
        (HandlerResult.httpError 500 msg, [ClientCall.search call])
      | Except.ok d =>
        (HandlerResult.ok
          { success := true
            group_id := group_id
            entities_count := d.length
            entities := d.map Prod.snd },
         [ClientCall.search call])

/-- Successful `GET /stats/{tenant_id}` payload (`main.py` lines 285-291). -/
structure StatsResponse where
  success : Bool
  tenant_id : String
  group_id : String
  episodes_count : Nat
  entities_count : Nat
deriving DecidableEq, Repr

/-- The `retrieve_episodes` client call built by the stats handler
(`main.py` lines 266-270). -/
def statsRetrieveCall (now : DateTime) (group_id : String) :
    RetrieveEpisodesCall :=
  { reference_time := now
    last_n := 10000
    group_ids := [group_id] }

/-- The `search` client call built by the stats handler
(`main.py` lines 273-277). -/
def statsSearchCall (group_id : String) : SearchCall :=
  { query := ""
    group_ids := [group_id]
    limit := none
    num_results := some 10000 }

/-- `GET /stats/{tenant_id}` handler (`main.py` lines 252-295).  The
unique-entity count is the number of distinct `fact.uuid` values among
results that carry them (a Python `set`). -/
def get_tenant_stats (pfx : String) (client : Option GraphitiClient)
    (now : DateTime) (tenant_id : String) :
    HandlerResult StatsResponse × List ClientCall :=
  match client with
  | none => (HandlerResult.httpError 503 "Graphiti not initialized", [])
  | some c =>
    let group_id := scope pfx tenant_id
    let rcall := statsRetrieveCall now group_id
    match c.retrieve_episodes rcall with
    | Except.error msg =>
      (HandlerResult.httpError 500 msg, [ClientCall.retrieveEpisodes rcall])
    | Except.ok episodes =>
      let scall := statsSearchCall group_id
      match c.search scall with
      | Except.error msg =>
        (HandlerResult.httpError 500 msg,
         [ClientCall.retrieveEpisodes rcall, ClientCall.search scall])
      | Except.ok entity_results =>
        (HandlerResult.ok
          { success := true
            tenant_id := tenant_id
            group_id := group_id
            episodes_count := episodes.length
            entities_count :=
              ((entity_results.filterMap fun r => r.fact.bind FactObj.uuid).dedup).length },
         [ClientCall.retrieveEpisodes rcall, ClientCall.search scall])

/-- Successful `DELETE /tenant/{tenant_id}` payload
(`main.py` lines 322-326). -/
structure DeleteResponse where
  success : Bool
  message : String
  group_id : String
deriving DecidableEq, Repr

/-- `DELETE /tenant/{tenant_id}` handler (`main.py` lines 298-330): the
`confirm` guard runs before the client-initialization check. -/
def delete_tenant_data (pfx : String) (client : Option GraphitiClient)
    (tenant_id : String) (confirm : Bool := false) :
    HandlerResult DeleteResponse × List ClientCall :=
  if !confirm then
    (HandlerResult.httpError 400 "Must set confirm=true to delete tenant data", [])
  else
    match client with
    | none => (HandlerResult.httpError 503 "Graphiti not initialized", [])
    | some c =>
      let group_id := scope pfx tenant_id
      match c.clear_data group_id with
      | Except.error msg =>
        (HandlerResult.httpError 500 msg, [ClientCall.clearData group_id])
      | Except.ok _ =>
        (HandlerResult.ok
          { success := true
            message := "All data deleted for tenant " ++ tenant_id
            group_id := group_id },
         [ClientCall.clearData group_id])

/-! ### Concrete sample values used in closed evaluations -/

/-- A concrete wall-clock instant. -/
def now0 : DateTime := { iso := "2024-01-01T12:00:00" }

/-- A concrete model of `datetime.fromisoformat`: parses every string except
the literal "garbage", on which it raises `ValueError`. -/
def parse0 : String → Except String DateTime := fun s =>
  if s = "garbage" then Except.error "Invalid isoformat string: garbage"
  else Except.ok { iso := s }

/-- A concrete successful add-episode result. -/
def sampleResults : AddEpisodeResults :=
  { episode :=
      { uuid := "ep-1"
        name := "Customer Conversation"
        created_at := some { iso := "2024-01-01T12:00:01" } }
    nodes := [(), ()]
    edges := [()] }

/-- A client whose every operation succeeds. -/
def okClient : GraphitiClient :=
  { add_episode := fun _ => Except.ok sampleResults
    search := fun _ => Except.ok []
    retrieve_episodes := fun _ => Except.ok []
    clear_data := fun _ => Except.ok () }

/-- A client whose every operation raises an exception with message "boom". -/
def errClient : GraphitiClient :=
  { add_episode := fun _ => Except.error "boom"
    search := fun _ => Except.error "boom"
    retrieve_episodes := fun _ => Except.error "boom"
    clear_data := fun _ => Except.error "boom" }

/-- A search hit carrying every optional attribute. -/
def hitFull : SearchHit :=
  { uuid := "h1"
    content := "c1"
    score := some 7
    created_at := some { iso := "2024-01-02T00:00:00" }
    fact := none }

/-- A search hit carrying none of the optional attributes. -/
def hitBare : SearchHit :=
  { uuid := "h2", content := "c2", score := none, created_at := none, fact := none }

/-- A client whose search returns one full and one bare hit. -/
def hitsClient : GraphitiClient :=
  { add_episode := fun _ => Except.ok sampleResults
    search := fun _ => Except.ok [hitFull, hitBare]
    retrieve_episodes := fun _ => Except.ok []
    clear_data := fun _ => Except.ok () }

/-- A plain valid episode request (default source "message", no timestamp). -/
def simpleReq : EpisodeRequest := { tenant_id := "t1", content := "hello" }

/-- An episode request with an unrecognized source kind. -/
def pigeonReq : EpisodeRequest :=
  { tenant_id := "t1", content := "hello", source := "carrier-pigeon" }

/-- An episode request with an unrecognized source AND an unparseable
reference timestamp. -/
def badTimeReq : EpisodeRequest :=
  { tenant_id := "t1", content := "hello", source := "carrier-pigeon"
    reference_time := some "garbage" }

/-- An episode request with a valid source but an unparseable timestamp. -/
def badTimeOnlyReq : EpisodeRequest :=
  { tenant_id := "t1", content := "hello", reference_time := some "garbage" }

/-- An episode request whose source is an uppercase capitalization variant. -/
def upperReq : EpisodeRequest :=
  { tenant_id := "t1", content := "hello", source := "MESSAGE" }

/-- A plain search request. -/
def sreq0 : SearchRequest := { tenant_id := "t1", query := "q" }

/-- A client whose `retrieve_episodes` succeeds while every other operation
raises "boom2": exercises an exception at the stats handler's second
client call. -/
def statsErrClient : GraphitiClient :=
  { add_episode := fun _ => Except.error "boom2"
    search := fun _ => Except.error "boom2"
    retrieve_episodes := fun _ => Except.ok []
    clear_data := fun _ => Except.error "boom2" }

/-! ### Claims -/

/-- C1: the tenant-scoping function is the pure concatenation
`scope pfx t = pfx ++ t` with the configured value fixed, and for a fixed
non-empty configured value it is injective: distinct tenant identifiers
always derive distinct group keys. -/
theorem scope_injective (pfx t₁ t₂ : String) (hp : pfx ≠ "") (h : t₁ ≠ t₂) :
    scope pfx t₁ ≠ scope pfx t₂ := by
  intro heq
  apply h
  cases pfx with | mk dp =>
  cases t₁ with | mk d₁ =>
  cases t₂ with | mk d₂ =>
  have h2 : dp ++ d₁ = dp ++ d₂ := congrArg String.data heq
  exact congrArg String.mk (List.append_cancel_left h2)

/-- C1 witness: concrete distinct tenants under the default configured
value get distinct group keys. -/
theorem scope_injective_witness :
    scope "turkwise_" "alice" ≠ scope "turkwise_" "bob" :=
  scope_injective "turkwise_" "alice" "bob" (by decide) (by decide)

/-- C5: the access guard passes exactly the requests whose header equals the
configured secret; any other header value, and an absent header, fail with
an authentication error (401 from the key comparison, 403 from the
framework for a missing header), independent of the endpoint (the guard is
a single function shared by every auth-required route). -/
theorem api_key_guard_correct (secret : String) (h : Option String) :
    (api_key_guard (some secret) h = HandlerResult.ok secret ↔ h = some secret)
  ∧ (h ≠ some secret →
      ∃ st d, api_key_guard (some secret) h = HandlerResult.httpError st d ∧
        (st = 401 ∨ st = 403)) := by
  cases h with
  | none =>
    refine ⟨⟨fun hok => ?_, fun hE => ?_⟩, fun _ => ⟨403, "Not authenticated", rfl, Or.inr rfl⟩⟩
    · exact absurd hok (by simp [api_key_guard])
    · exact absurd hE (by simp)
  | some k =>
    by_cases hk : k = secret
    · subst hk
      refine ⟨⟨fun _ => rfl, fun _ => ?_⟩, fun hne => absurd rfl hne⟩
      simp [api_key_guard, verify_api_key]
    · refine ⟨⟨fun hok => ?_, fun hsome => ?_⟩, fun _ => ?_⟩
      · simp [api_key_guard, verify_api_key, hk] at hok
      · exact absurd (Option.some.inj hsome) hk
      · exact ⟨401, "Invalid API key", by simp [api_key_guard, verify_api_key, hk], Or.inl rfl⟩

/-- C5 witness: with secret "sec", the matching header passes and a wrong
header fails with an authentication status. -/
theorem api_key_guard_correct_witness :
    api_key_guard (some "sec") (some "sec") = HandlerResult.ok "sec"
  ∧ ∃ st d, api_key_guard (some "sec") (some "bad") = HandlerResult.httpError st d ∧
      (st = 401 ∨ st = 403) :=
  ⟨(api_key_guard_correct "sec" (some "sec")).1.mpr rfl,
   (api_key_guard_correct "sec" (some "bad")).2 (by decide)⟩

/-- C8: the health handler invoked before startup completes (client handle
still `none`) returns the successful degraded payload with the graph client
reported "disconnected" and the configured database endpoint; being a total
function it never crashes, and its route carries no auth dependency. -/
theorem health_check_degraded (host : String) (port : Int) :
    health_check none host port =
      { status := "healthy"
        graphiti := "disconnected"
        falkordb := host ++ ":" ++ toString port } := rfl

/-- C9: the delete-tenant handler checks the confirmation flag before the
client-initialization check — an unconfirmed request gets the 400 even with
the client uninitialized — whereas every other client-requiring handler
returns the 503 first, before any validation, for every request. -/
theorem delete_confirm_precedes_init_check (pfx t t₁ t₂ : String)
    (parseIso : String → Except String DateTime) (now : DateTime)
    (ereq : EpisodeRequest) (sreq : SearchRequest) :
    (delete_tenant_data pfx none t false).1 =
      HandlerResult.httpError 400 "Must set confirm=true to delete tenant data"
  ∧ (add_episode pfx none parseIso now ereq).1 =
      HandlerResult.httpError 503 "Graphiti not initialized"
  ∧ (search_memory pfx none sreq).1 =
      HandlerResult.httpError 503 "Graphiti not initialized"
  ∧ (get_entities pfx none t₁).1 =
      HandlerResult.httpError 503 "Graphiti not initialized"
  ∧ (get_tenant_stats pfx none now t₂).1 =
      HandlerResult.httpError 503 "Graphiti not initialized" :=
  ⟨rfl, rfl, rfl, rfl, rfl⟩

/-- C4: a delete-tenant request with `confirm` false (the value an omitted
flag defaults to) is rejected with the 400 validation error and issues no
client call at all; with `confirm` true and an initialized client, the
handler issues exactly one `clear_data` call, carrying the scoped group
key. -/
theorem delete_tenant_confirmation_guard (pfx t : String)
    (client : Option GraphitiClient) (c : GraphitiClient) :
    delete_tenant_data pfx client t false =
      (HandlerResult.httpError 400 "Must set confirm=true to delete tenant data", [])
  ∧ (delete_tenant_data pfx (some c) t true).2 = [ClientCall.clearData (scope pfx t)] := by
  refine ⟨rfl, ?_⟩
  cases hc : c.clear_data (scope pfx t) with
  | error msg => simp [delete_tenant_data, hc]
  | ok u => simp [delete_tenant_data, hc]

/-- C2: for every handler and every client call it performs, an exception
raised by the external client during that call (for any exception message)
is caught and surfaced as the single server-error envelope
`HTTPException(500, str(e))`; no such exception escapes as an unhandled
fault (each handler is a total function whose outcome is exactly the 500
envelope).  The episode, search, entities and delete handlers each perform
one client call; the stats handler performs two, and the `hR` disjunction
covers an exception at either of them: at `retrieve_episodes`, or at the
subsequent `search` after `retrieve_episodes` succeeded. -/
theorem upstream_exception_envelope
    (pfx msg t₁ t₂ t₃ : String) (now rt : DateTime)
    (parseIso : String → Except String DateTime) (c : GraphitiClient)
    (ereq : EpisodeRequest) (sreq : SearchRequest) (etype : EpisodeType)
    (href : refResolve parseIso now ereq.reference_time = Except.ok rt)
    (hsrc : episodeTypeLookup (strLower ereq.source) = some etype)
    (hA : c.add_episode (addEpisodeCallOf (scope pfx ereq.tenant_id) rt etype ereq) =
      Except.error msg)
    (hS : c.search (searchMemoryCallOf (scope pfx sreq.tenant_id) sreq) =
      Except.error msg)
    (hE : c.search (entitiesSearchCall (scope pfx t₁)) = Except.error msg)
    (hR : c.retrieve_episodes (statsRetrieveCall now (scope pfx t₂)) =
        Except.error msg ∨
      ((∃ eps, c.retrieve_episodes (statsRetrieveCall now (scope pfx t₂)) =
          Except.ok eps) ∧
        c.search (statsSearchCall (scope pfx t₂)) = Except.error msg))
    (hC : c.clear_data (scope pfx t₃) = Except.error msg) :
    (add_episode pfx (some c) parseIso now ereq).1 = HandlerResult.httpError 500 msg
  ∧ (search_memory pfx (some c) sreq).1 = HandlerResult.httpError 500 msg
  ∧ (get_entities pfx (some c) t₁).1 = HandlerResult.httpError 500 msg
  ∧ (get_tenant_stats pfx (some c) now t₂).1 = HandlerResult.httpError 500 msg
  ∧ (delete_tenant_data pfx (some c) t₃ true).1 = HandlerResult.httpError 500 msg := by
  refine ⟨?_, ?_, ?_, ?_, ?_⟩
  · simp [add_episode, href, hsrc, hA]
  · simp [search_memory, hS]
  · simp [get_entities, hE]
  · rcases hR with hR | ⟨⟨eps, hok⟩, hs⟩
    · simp [get_tenant_stats, hR]
    · simp [get_tenant_stats, hok, hs]
  · simp [delete_tenant_data, hC]

/-- C2 witness: with a client whose every operation raises "boom", each of
the five handlers returns exactly the 500 envelope carrying "boom"; and
with a client whose `retrieve_episodes` succeeds but whose `search` raises
"boom2", the stats handler surfaces the exception of its second client
call as the 500 envelope carrying "boom2". -/
theorem upstream_exception_envelope_witness :
    (add_episode "turkwise_" (some errClient) parse0 now0 simpleReq).1 =
      HandlerResult.httpError 500 "boom"
  ∧ (search_memory "turkwise_" (some errClient) sreq0).1 =
      HandlerResult.httpError 500 "boom"
  ∧ (get_entities "turkwise_" (some errClient) "t1").1 =
      HandlerResult.httpError 500 "boom"
  ∧ (get_tenant_stats "turkwise_" (some errClient) now0 "t1").1 =
      HandlerResult.httpError 500 "boom"
  ∧ (delete_tenant_data "turkwise_" (some errClient) "t1" true).1 =
      HandlerResult.httpError 500 "boom"
  ∧ (get_tenant_stats "turkwise_" (some statsErrClient) now0 "t1").1 =
      HandlerResult.httpError 500 "boom2" := by
  have h₁ := upstream_exception_envelope "turkwise_" "boom" "t1" "t1" "t1" now0 now0
    parse0 errClient simpleReq sreq0 EpisodeType.message rfl (by decide) rfl rfl rfl
    (Or.inl rfl) rfl
  have h₂ := upstream_exception_envelope "turkwise_" "boom2" "t1" "t1" "t1" now0 now0
    parse0 statsErrClient simpleReq sreq0 EpisodeType.message rfl (by decide) rfl rfl
    rfl (Or.inr ⟨⟨[], rfl⟩, rfl⟩) rfl
  exact ⟨h₁.1, h₁.2.1, h₁.2.2.1, h₁.2.2.2.1, h₁.2.2.2.2, h₂.2.2.2.1⟩

/-- C7: whenever the external client returns a list of hits, the search
handler succeeds and maps every hit to
`{identifier, content, optional score, optional creation timestamp}`;
a hit lacking the optional `score` or `created_at` attribute maps those
response fields to null (`none`) — absence never fails the request. -/
theorem search_hit_mapping_total (pfx : String) (c : GraphitiClient)
    (req : SearchRequest) (results : List SearchHit)
    (h : c.search (searchMemoryCallOf (scope pfx req.tenant_id) req) =
      Except.ok results) :
    (search_memory pfx (some c) req).1 =
      HandlerResult.ok
        { success := true
          query := req.query
          group_id := scope pfx req.tenant_id
          results_count := results.length
          results := results.map mapHit } := by
  simp [search_memory, h]

/-- C7 witness: a client returning one hit with all optional attributes and
one with none of them yields a success payload where the bare hit maps its
optional fields to null. -/
theorem search_hit_mapping_total_witness :
    (search_memory "turkwise_" (some hitsClient) sreq0).1 =
      HandlerResult.ok
        { success := true
          query := sreq0.query
          group_id := scope "turkwise_" sreq0.tenant_id
          results_count := 2
          results :=
            [{ uuid := "h1", content := "c1", score := some 7
               created_at := some "2024-01-02T00:00:00" },
             { uuid := "h2", content := "c2", score := none, created_at := none }] } :=
  search_hit_mapping_total "turkwise_" hitsClient sreq0 [hitFull, hitBare] rfl

/-- C3 counterexample: a submission whose source is "carrier-pigeon" (not a
recognized value) and whose reference timestamp fails to parse is answered
with status 500, not the claimed 400, because the handler parses the
timestamp before it checks the source kind. -/
theorem invalid_source_with_bad_time_gives_500 :
    episodeTypeLookup (strLower badTimeReq.source) = none
  ∧ (add_episode "turkwise_" (some okClient) parse0 now0 badTimeReq).1 =
      HandlerResult.httpError 500 "Invalid isoformat string: garbage" := by
  exact ⟨by decide, by decide⟩

/-- C3 amended: a submission with an unrecognized source never causes any
client call (in particular ingestion is never invoked), and is rejected
with the 400 envelope whenever the reference timestamp resolves (absent,
empty, or parseable); when the timestamp fails to parse first, the outcome
is the 500 envelope instead, still with no client call. -/
theorem invalid_source_rejected_before_client (pfx : String) (c : GraphitiClient)
    (parseIso : String → Except String DateTime) (now rt : DateTime)
    (req : EpisodeRequest)
    (hsrc : episodeTypeLookup (strLower req.source) = none) :
    (add_episode pfx (some c) parseIso now req).2 = []
  ∧ (refResolve parseIso now req.reference_time = Except.ok rt →
      (add_episode pfx (some c) parseIso now req).1 =
        HandlerResult.httpError 400
          ("Invalid source type: " ++ req.source ++ ". Valid values: message, text, json")) := by
  constructor
  · cases hr : refResolve parseIso now req.reference_time with
    | error msg => simp [add_episode, hr]
    | ok rt₂ => simp [add_episode, hr, hsrc]
  · intro hr
    simp [add_episode, hr, hsrc]

/-- C3 amended witness: the "carrier-pigeon" submission with no timestamp is
rejected with the 400 envelope and no client call is made. -/
theorem invalid_source_rejected_before_client_witness :
    (add_episode "turkwise_" (some okClient) parse0 now0 pigeonReq).2 = []
  ∧ (add_episode "turkwise_" (some okClient) parse0 now0 pigeonReq).1 =
      HandlerResult.httpError 400
        ("Invalid source type: " ++ pigeonReq.source ++ ". Valid values: message, text, json") := by
  have h2 := invalid_source_rejected_before_client "turkwise_" okClient parse0 now0 now0
    pigeonReq (by decide)
  exact ⟨h2.1, h2.2 rfl⟩

/-- C6 counterexample: a submission whose reference timestamp is present but
unparseable is answered with the 500 server-error envelope, not a client
error: the `ValueError` is caught by the broad `except Exception` clause,
which maps every exception to status 500. -/
theorem bad_reference_time_gives_500 :
    badTimeOnlyReq.reference_time = some "garbage"
  ∧ parse0 "garbage" = Except.error "Invalid isoformat string: garbage"
  ∧ (add_episode "turkwise_" (some okClient) parse0 now0 badTimeOnlyReq).1 =
      HandlerResult.httpError 500 "Invalid isoformat string: garbage" :=
  ⟨rfl, rfl, by decide⟩

/-- C6 amended: a present, non-empty reference timestamp that fails to parse
is surfaced as the handled 500 server-error envelope carrying the parse
exception message (never a crash, and no client call); an absent (or empty,
which Python treats as falsy) timestamp defaults to the current wall-clock
time, which is exactly the `reference_time` forwarded in the ingestion
call. -/
theorem reference_time_handling (pfx msg s : String) (c : GraphitiClient)
    (parseIso : String → Except String DateTime) (now : DateTime)
    (req : EpisodeRequest) (etype : EpisodeType) :
    (req.reference_time = some s → s ≠ "" → parseIso s = Except.error msg →
      add_episode pfx (some c) parseIso now req = (HandlerResult.httpError 500 msg, []))
  ∧ ((req.reference_time = none ∨ req.reference_time = some "") →
      episodeTypeLookup (strLower req.source) = some etype →
      (add_episode pfx (some c) parseIso now req).2 =
        [ClientCall.addEpisode (addEpisodeCallOf (scope pfx req.tenant_id) now etype req)]) := by
  constructor
  · intro hrt hne hp
    have hr : refResolve parseIso now req.reference_time = Except.error msg := by
      rw [hrt]; simp [refResolve, hne, hp]
    simp [add_episode, hr]
  · intro hrt hsrc
    have hr : refResolve parseIso now req.reference_time = Except.ok now := by
      rcases hrt with h₁ | h₁ <;> rw [h₁] <;> simp [refResolve]
    cases hc : c.add_episode (addEpisodeCallOf (scope pfx req.tenant_id) now etype req) with
    | error m => simp [add_episode, hr, hsrc, hc]
    | ok res => simp [add_episode, hr, hsrc, hc]

/-- C6 amended witness: the unparseable-timestamp submission yields exactly
the 500 envelope with the parse message and no client call, and the
timestamp-free submission forwards `now` as the ingestion reference time. -/
theorem reference_time_handling_witness :
    add_episode "turkwise_" (some okClient) parse0 now0 badTimeOnlyReq =
      (HandlerResult.httpError 500 "Invalid isoformat string: garbage", [])
  ∧ (add_episode "turkwise_" (some okClient) parse0 now0 simpleReq).2 =
      [ClientCall.addEpisode
        (addEpisodeCallOf (scope "turkwise_" simpleReq.tenant_id) now0
          EpisodeType.message simpleReq)] :=
  ⟨(reference_time_handling "turkwise_" "Invalid isoformat string: garbage" "garbage"
      okClient parse0 now0 badTimeOnlyReq EpisodeType.message).1 rfl (by decide) rfl,
   (reference_time_handling "turkwise_" "x" "x" okClient parse0 now0 simpleReq
      EpisodeType.message).2 (Or.inl rfl) (by decide)⟩

/-- C10: source-kind matching is case-insensitive — for every submission
whose source lowercases to "message", "text" or "json" (so every
capitalization variant of those words), the handler accepts it and forwards
exactly one ingestion call whose enum value is the one determined by the
lowercased string. -/
theorem source_case_insensitive (pfx : String) (c : GraphitiClient)
    (parseIso : String → Except String DateTime) (now rt : DateTime)
    (req : EpisodeRequest)
    (href : refResolve parseIso now req.reference_time = Except.ok rt)
    (h : strLower req.source = "message" ∨ strLower req.source = "text" ∨
      strLower req.source = "json") :
    (add_episode pfx (some c) parseIso now req).2 =
      [ClientCall.addEpisode
        (addEpisodeCallOf (scope pfx req.tenant_id) rt
          (if strLower req.source = "message" then EpisodeType.message
           else if strLower req.source = "text" then EpisodeType.text
           else EpisodeType.json) req)] := by
  rcases h with hL | hL | hL
  · have hsrc : episodeTypeLookup "message" = some EpisodeType.message := by decide
    cases hc : c.add_episode (addEpisodeCallOf (scope pfx req.tenant_id) rt
        EpisodeType.message req) with
    | error m => simp [add_episode, href, hL, hsrc, hc]
    | ok res => simp [add_episode, href, hL, hsrc, hc]
  · have hsrc : episodeTypeLookup "text" = some EpisodeType.text := by decide
    cases hc : c.add_episode (addEpisodeCallOf (scope pfx req.tenant_id) rt
        EpisodeType.text req) with
    | error m => simp [add_episode, href, hL, hsrc, hc]
    | ok res => simp [add_episode, href, hL, hsrc, hc]
  · have hsrc : episodeTypeLookup "json" = some EpisodeType.json := by decide
    cases hc : c.add_episode (addEpisodeCallOf (scope pfx req.tenant_id) rt
        EpisodeType.json req) with
    | error m => simp [add_episode, href, hL, hsrc, hc]
    | ok res => simp [add_episode, href, hL, hsrc, hc]

/-- C10 witness: the all-uppercase source "MESSAGE" is accepted and mapped
to the same enum value as lowercase "message", forwarded in exactly one
ingestion call. -/
theorem source_case_insensitive_witness :
    (add_episode "turkwise_" (some okClient) parse0 now0 upperReq).2 =
      [ClientCall.addEpisode
        (addEpisodeCallOf (scope "turkwise_" upperReq.tenant_id) now0
          (if strLower upperReq.source = "message" then EpisodeType.message
           else if strLower upperReq.source = "text" then EpisodeType.text
           else EpisodeType.json) upperReq)] :=
  source_case_insensitive "turkwise_" okClient parse0 now0 now0 upperReq rfl
    (Or.inl (by decide))
